import Mathlib

/-!
Shallow embedding of `src/Nexresume.py` (NexResume): a batch pipeline that
extracts resume text, builds an LLM prompt, calls an inference endpoint and
writes one JSON report per successfully analysed resume.

Conventions of the embedding:
* Python values decoded from JSON/YAML are modelled by the inductive `Json`
  (numbers as `Int`; floats are not needed by any claim).
* Python exceptions are modelled by `Except Err`; a `try/except` block is the
  `match` that turns `.error e` into a caught outcome.
* The filesystem and the network are modelled by an explicit environment
  `Env`: `os.listdir`, `os.path.exists`, `os.makedirs`, the per-path file
  contents, the inference endpoint, and whether a write to a path succeeds.
* `print` logging is not modelled; claims are about control flow and
  artifacts, not the wording of log lines.
-/

/-- Python values decoded from JSON (shallow model; numbers as `Int`,
string escaping inside serialized output is not modelled). -/
inductive Json where
  | null
  | bool (b : Bool)
  | num (n : Int)
  | str (s : String)
  | arr (elems : List Json)
  | obj (fields : List (String × Json))

/-- A Python dict as loaded from the YAML job description. -/
abbrev PyDict := List (String × Json)

/-- What a file on disk holds, as far as extraction is concerned:
a PDF whose pages each yield `some text` or `none` (no extractable text,
PyPDF2 returns `None`), a text file with decoded content, or a file whose
open/parse raises. -/
inductive FileData where
  | pdfFile (pages : List (Option String))
  | txtFile (content : String)
  | unreadable
deriving DecidableEq, Repr

/-- Kinds of Python exceptions relevant to the pipeline. -/
inductive Err where
  | extractionError
  | apiError
  | writeError
  | typeError
  | osError
  | authError
deriving DecidableEq, Repr

/-- Python truthiness `bool(x)` for decoded JSON values: empty containers,
empty strings, zero, `False` and `None` are falsy. -/
def Json.truthy : Json → Bool
  | .null => false
  | .bool b => b
  | .num n => n != 0
  | .str s => !s.isEmpty
  | .arr es => !es.isEmpty
  | .obj fs => !fs.isEmpty

/-- Python dict item assignment `d[k] = v` on the underlying association
list (dict keys are unique): update the key in place when present, else
append it at the end, as CPython insertion order does. -/
def setKey : List (String × Json) → String → Json → List (String × Json)
  | [], k, v => [(k, v)]
  | (k1, v1) :: t, k, v =>
    if k1 == k then (k, v) :: t else (k1, v1) :: setKey t k v

/-- Python `x[k] = v` as an operation on a decoded JSON value: item
assignment on anything but a dict raises `TypeError`. -/
def pySetItem : Json → String → Json → Except Err Json
  | .obj fs, k, v => .ok (.obj (setKey fs k v))
  | _, _, _ => .error .typeError

/-- Python `s.endswith(suffix)` on the character lists (the core
`String.endsWith` does not reduce in the kernel, so the embedding uses the
list form). -/
def pyEndsWith (s suffix : String) : Bool :=
  suffix.toList.isSuffixOf s.toList

/-- Python `s.startswith(p)` on the character lists. -/
def pyStartsWith (s p : String) : Bool :=
  p.toList.isPrefixOf s.toList

/-- Python `str.isspace` character class (ASCII whitespace; exotic Unicode
space characters are not modelled). -/
def pyCharIsSpace (c : Char) : Bool :=
  c == ' ' || c == '\t' || c == '\n' || c == '\r' || c == '\x0b' || c == '\x0c'

/-- Python `s.isspace()`: true iff `s` is non-empty and all characters are
whitespace. -/
def pyIsSpace (s : String) : Bool :=
  !s.isEmpty && s.toList.all pyCharIsSpace

/-- Python `os.path.join` for POSIX paths, as used with a folder and a bare
filename. -/
def pyJoin (a b : String) : String :=
  if pyStartsWith b "/" then b
  else if a.isEmpty || pyEndsWith a "/" then a ++ b
  else a ++ "/" ++ b

/-- Index of the last dot of a character list, if any. -/
def lastDotIndex (cs : List Char) : Option Nat :=
  ((List.range cs.length).filter fun i => cs.getD i ' ' == '.').getLast?

/-- Python `os.path.splitext(name)[0]` for a bare filename (no separator):
split at the last dot, except that leading dots of the name never start an
extension (so `.txt` has no extension and is its own root). -/
def splitextRoot (name : String) : String :=
  let cs := name.toList
  match lastDotIndex cs with
  | none => name
  | some d =>
    if (List.range d).any (fun i => cs.getD i ' ' != '.') then
      String.mk (cs.take d)
    else name

/-- Eligibility filter of the orchestrator, Python
`filename.endswith((".pdf", ".txt"))` (the original uses single quotes). -/
def eligible (filename : String) : Bool :=
  pyEndsWith filename ".pdf" || pyEndsWith filename ".txt"

/-- Model of `extract_text_from_resume` from `src/Nexresume.py`, over an abstract
filesystem `fs` mapping a path to its `FileData` (or `none` when opening
raises).  A `.pdf` path concatenates `page.extract_text() or ""` over the
pages in order; a `.txt` path returns the file content; any other path
returns the initial empty string untouched.  A missing/unreadable file, or a
file whose bytes do not match the decoder chosen by the extension, raises. -/
def extract_text_from_resume (fs : String → Option FileData) (filepath : String) :
    Except Err String :=
  if pyEndsWith filepath ".pdf" then
    match fs filepath with
    | some (.pdfFile pages) => .ok (pages.foldl (fun acc p => acc ++ p.getD "") "")
    | _ => .error .extractionError
  else if pyEndsWith filepath ".txt" then
    match fs filepath with
    | some (.txtFile content) => .ok content
    | _ => .error .extractionError
  else .ok ""

/-- String of `n` spaces, for indentation in serialized JSON. -/
def spaces (n : Nat) : String := String.mk (List.replicate n ' ')

mutual

/-- Python `repr(x)` for decoded JSON values, as f-string interpolation
renders lists and dicts (quote escaping inside strings is not modelled). -/
def pyRepr : Json → String
  | .null => "None"
  | .bool true => "True"
  | .bool false => "False"
  | .num n => toString n
  | .str s => "\x27" ++ s ++ "\x27"
  | .arr es => "[" ++ String.intercalate ", " (pyReprList es) ++ "]"
  | .obj fs => "\x7b" ++ String.intercalate ", " (pyReprFields fs) ++ "\x7d"

/-- Python `repr` of each element of a list. -/
def pyReprList : List Json → List String
  | [] => []
  | j :: js => pyRepr j :: pyReprList js

/-- Python `repr` of each `key: value` item of a dict. -/
def pyReprFields : List (String × Json) → List String
  | [] => []
  | (k, v) :: fs => ("\x27" ++ k ++ "\x27: " ++ pyRepr v) :: pyReprFields fs

end

/-- Python `str(x)` (what an f-string interpolation produces): strings
render verbatim, everything else as its `repr`. -/
def pyStr : Json → String
  | .str s => s
  | j => pyRepr j

/-- Rendering of `dict.get(key)` inside an f-string: a missing key gives
`None`, which formats as the placeholder text `None`. -/
def pyStrOpt : Option Json → String
  | none => "None"
  | some j => pyStr j

mutual

/-- Python `json.dumps(x, indent=ind)` at nesting depth `level` (escaping
not modelled; Python separators for indented output: `,` and `: `). -/
def jsonDumps (ind level : Nat) : Json → String
  | .null => "null"
  | .bool true => "true"
  | .bool false => "false"
  | .num n => toString n
  | .str s => "\"" ++ s ++ "\""
  | .arr [] => "[]"
  | .arr (e :: es) =>
      "[\n" ++ String.intercalate ",\n" (jsonDumpsList ind (level + 1) (e :: es)) ++
      "\n" ++ spaces (ind * level) ++ "]"
  | .obj [] => "\x7b\x7d"
  | .obj (f :: fs) =>
      "\x7b\n" ++ String.intercalate ",\n" (jsonDumpsFields ind (level + 1) (f :: fs)) ++
      "\n" ++ spaces (ind * level) ++ "\x7d"

/-- Serialized elements of a JSON array, each on its own indented line. -/
def jsonDumpsList (ind level : Nat) : List Json → List String
  | [] => []
  | j :: js => (spaces (ind * level) ++ jsonDumps ind level j) :: jsonDumpsList ind level js

/-- Serialized members of a JSON object, each on its own indented line. -/
def jsonDumpsFields (ind level : Nat) : List (String × Json) → List String
  | [] => []
  | (k, v) :: fs =>
      (spaces (ind * level) ++ "\"" ++ k ++ "\": " ++ jsonDumps ind level v) ::
      jsonDumpsFields ind level fs

end

/-- The literal `json_format_instructions` response-schema template from
`create_llm_prompt`. -/
def json_format_instructions : String :=
  "\n    \x7b\n        \"matched_required_skills\": [],\n        \"missing_required_skills\": [],\n        \"matched_optional_skills\": [],\n        \"education_match\": \"Yes/No/Partial\",\n        \"experience_match\": \"Yes/No\",\n        \"keywords_matched\": [],\n        \"soft_skills_match\": \"A brief analysis of soft skills match.\",\n        \"resume_summary\": \"A 2-3 sentence summary of the resume.\",\n        \"match_score\": 0.0,\n        \"city_tier_match\": \"Yes/No/Not Applicable\",\n        \"longest_tenure_months\": 0,\n        \"final_score\": 0\n    \x7d\n    "

/-- Literal text of the prompt f-string up to the `City_Tier` interpolation. -/
def promptPart1 : String :=
  "\n    Analyze the following resume against the provided job description for an IT role in India. \n    Your task is to act as an expert IT recruiter and return a JSON object with a detailed analysis.\n\n    EVALUATION CRITERIA (IMPORTANT):\n    1.  Semantic Matching : Do not just keyword match. Understand the context. For example, if the resume lists \"API development\" and the job requires \"REST APIs\", that\x27s a strong match.\n    2.  Scoring Logic for \x27final_score\x27 (0-100 integer):\n        * The \x27final_score\x27 must summarize the overall quality.\n        * **Stability Bonus**: Candidates with a longer tenure in a single job (\x27longest_tenure_months\x27) are more stable and should receive a higher score. \n        * **Geographic Diversity Bonus**: Candidates from Tier-3 cities are highly valued to promote diversity. If the candidate\x27s location appears to be in a Tier-3 city (any city not in Tier-1 or Tier-2 lists), give them a significant bonus in the score.\n    3.  City Tier Logic: Based on the candidate\x27s most recent location in the resume, determine if their city tier matches the tier specified in the job description (\x27"

/-- Literal text between the `City_Tier` and `Tier-1_cities` interpolations. -/
def promptPart2 : String :=
  "\x27). \n        * Tier-1 Cities: "

/-- Literal text between the `Tier-1_cities` and `Tier-2_cities` interpolations. -/
def promptPart3 : String :=
  " \n        * Tier-2 Cities (Examples): "

/-- Literal text between the `Tier-2_cities` interpolation and the serialized
job description. -/
def promptPart4 : String :=
  " \n        * Tier-3 Cities: All other cities. \n\n    **JOB DESCRIPTION:**\n    ```json\n    "

/-- Literal text between the serialized job description and the resume text. -/
def promptPart5 : String :=
  "\n    ```\n\n    **RESUME TEXT:**\n    ```\n    "

/-- Literal text between the resume text and the response-schema template. -/
def promptPart6 : String :=
  "\n    ```\n\n    **YOUR RESPONSE (must be ONLY the JSON object below):**\n    Return a single, valid JSON object structured exactly as follows:\n    ```json\n    "

/-- Literal text after the response-schema template. -/
def promptPart7 : String :=
  "\n    ```\n    "

/-- Model of `create_llm_prompt` from `src/Nexresume.py`: the f-string as the
concatenation of its literal parts and its interpolations, in order.  The
three `job_desc.get(...)` interpolations format a missing key as `None`;
`json.dumps(job_desc, indent=2)` serializes the whole mapping. -/
def create_llm_prompt (job_desc : PyDict) (resume_text : String) : String :=
  promptPart1 ++ pyStrOpt (List.lookup "City_Tier" job_desc) ++
  promptPart2 ++ pyStrOpt (List.lookup "Tier-1_cities" job_desc) ++
  promptPart3 ++ pyStrOpt (List.lookup "Tier-2_cities" job_desc) ++
  promptPart4 ++ jsonDumps 2 0 (Json.obj job_desc) ++
  promptPart5 ++ resume_text ++
  promptPart6 ++ json_format_instructions ++
  promptPart7

/-- One request to `client.chat.completions.create` followed by
`json.loads` of the response text.  The endpoint (network, auth, rate
limits, malformed JSON — all collapsed into `Except Err Json`) is the
oracle; the returned list records the prompts sent so far, so the number of
attempts is observable. -/
def apiCall (oracle : String → Except Err Json) (p : String) (calls : List String) :
    Except Err Json × List String :=
  (oracle p, calls ++ [p])

/-- Body of `get_analysis_from_gpt`, threaded through the call log: one
`apiCall`, then the `try/except` that maps any raised failure to `None`. -/
def get_analysis_from_gpt_run (oracle : String → Except Err Json) (prompt : String)
    (calls : List String) : Option Json × List String :=
  let r := apiCall oracle prompt calls
  match r.1 with
  | .ok j => (some j, r.2)
  | .error _ => (none, r.2)

/-- Model of `get_analysis_from_gpt` from `src/Nexresume.py`: the decoded
mapping, or `none` when the single attempt raised. -/
def get_analysis_from_gpt (oracle : String → Except Err Json) (prompt : String) :
    Option Json :=
  (get_analysis_from_gpt_run oracle prompt []).1

/-- The whole of `get_analysis_from_gpt` including the two statements that
precede the `try` block: `load_dotenv()` and the `OpenAI(...)` client
construction.  Construction raises (outside every `except` of the
function) when the API key is absent; only then is no request attempted.
`ci` is the outcome of that construction. -/
def get_analysis_from_gpt_full_run (ci : Except Err Unit)
    (oracle : String → Except Err Json) (prompt : String) (calls : List String) :
    Except Err (Option Json) × List String :=
  match ci with
  | .error e => (.error e, calls)
  | .ok _ =>
    (.ok (get_analysis_from_gpt_run oracle prompt calls).1,
     (get_analysis_from_gpt_run oracle prompt calls).2)

/-- Result of the whole `get_analysis_from_gpt`, client construction
included: `.error` when construction raised, otherwise `.ok` of what the
guarded single attempt produced. -/
def get_analysis_from_gpt_full (ci : Except Err Unit)
    (oracle : String → Except Err Json) (prompt : String) :
    Except Err (Option Json) :=
  (get_analysis_from_gpt_full_run ci oracle prompt []).1

/-- Record of one `json.dump(analysis_result, report_file, indent=4)` call:
the path written, the value serialized, and the indentation argument. -/
structure Written where
  path : String
  report : Json
  indent : Nat

/-- Terminal state of one eligible file inside the batch loop. -/
inductive FileOutcome where
  | skippedEmpty
  | skippedNoResult
  | written (w : Written)
  | failed (e : Err)

/-- The ambient world of `process_resumes_in_batch`: the directory listing
of the resumes folder, existence of the reports folder, the result of
creating it, per-path file contents, the inference endpoint, and whether a
write to a given path succeeds. -/
structure Env where
  listdir : Except Err (List String)
  pathExists : Bool
  makedirs : Except Err Unit
  fs : String → Option FileData
  clientInit : Except Err Unit
  oracle : String → Except Err Json
  writeOk : String → Bool

/-- The `try` block of the per-file loop in `process_resumes_in_batch`:
extract, skip on empty/whitespace text, build the prompt, call the
analysis, and — when the result is truthy — attach `candidate_name` and
write `<basename>_report.json`.  Any raised step surfaces as `.error`. -/
def process_file_body (jd : PyDict) (env : Env) (resumes_folder reports_folder : String)
    (filename : String) : Except Err FileOutcome :=
  match extract_text_from_resume env.fs (pyJoin resumes_folder filename) with
  | .error e => .error e
  | .ok resume_text =>
    if resume_text.isEmpty || pyIsSpace resume_text then
      .ok .skippedEmpty
    else
      match get_analysis_from_gpt_full env.clientInit env.oracle
          (create_llm_prompt jd resume_text) with
      | .error e => .error e
      | .ok none => .ok .skippedNoResult
      | .ok (some analysis_result) =>
        if analysis_result.truthy then
          match pySetItem analysis_result "candidate_name" (.str (splitextRoot filename)) with
          | .error e => .error e
          | .ok named =>
            if env.writeOk (pyJoin reports_folder (splitextRoot filename ++ "_report.json")) then
              .ok (.written ⟨pyJoin reports_folder (splitextRoot filename ++ "_report.json"), named, 4⟩)
            else .error .writeError
        else .ok .skippedNoResult

/-- One eligible file processed under the per-file `except Exception`
boundary: a raised fault is caught and recorded, never propagated. -/
def process_file (jd : PyDict) (env : Env) (resumes_folder reports_folder : String)
    (filename : String) : FileOutcome :=
  match process_file_body jd env resumes_folder reports_folder filename with
  | .ok o => o
  | .error e => .failed e

/-- Model of `process_resumes_in_batch` from `src/Nexresume.py`: create the reports
folder when absent, list the resumes folder, and run the per-file loop over
the eligible (`.pdf`/`.txt`) filenames.  Failures of the directory create
or of the listing propagate (they are outside every `try`); per-file
failures do not. -/
def process_resumes_in_batch (env : Env) (jd : PyDict)
    (resumes_folder reports_folder : String) :
    Except Err (List (String × FileOutcome)) :=
  match (if env.pathExists then Except.ok () else env.makedirs) with
  | .error e => .error e
  | .ok _ =>
    match env.listdir with
    | .error e => .error e
    | .ok files =>
      .ok (files.filterMap fun filename =>
        if eligible filename then
          some (filename, process_file jd env resumes_folder reports_folder filename)
        else none)

/-- The report artifacts actually written during a batch run. -/
def writtenReports (outs : List (String × FileOutcome)) : List Written :=
  outs.filterMap fun fo =>
    match fo.2 with
    | .written w => some w
    | _ => none

/-- Helper: the analysis client returns `some` exactly when the endpoint
call returns without raising. -/
theorem get_analysis_some_iff (oracle : String → Except Err Json) (p : String) (j : Json) :
    get_analysis_from_gpt oracle p = some j ↔ oracle p = .ok j := by
  unfold get_analysis_from_gpt get_analysis_from_gpt_run apiCall
  cases h : oracle p <;> simp [h]

/-- Helper: the analysis client returns `none` exactly when the endpoint
call raises. -/
theorem get_analysis_none_iff (oracle : String → Except Err Json) (p : String) :
    get_analysis_from_gpt oracle p = none ↔ ∃ e, oracle p = .error e := by
  unfold get_analysis_from_gpt get_analysis_from_gpt_run apiCall
  cases h : oracle p <;> simp [h]

/-- Helper: the full analysis client (construction included) yields a
decoded value exactly when construction succeeded and the endpoint call
returned that value. -/
theorem get_analysis_full_ok_some_iff (ci : Except Err Unit)
    (oracle : String → Except Err Json) (p : String) (j : Json) :
    get_analysis_from_gpt_full ci oracle p = .ok (some j) ↔
      ci = .ok () ∧ oracle p = .ok j := by
  unfold get_analysis_from_gpt_full get_analysis_from_gpt_full_run
    get_analysis_from_gpt_run apiCall
  cases ci with
  | error e => simp
  | ok u =>
    cases u
    cases h : oracle p <;> simp [h]

/-- Claim C3 counterexample: when the client construction raises (the API
key is absent — what the specification itself calls an authentication
failure surfacing at first call), `get_analysis_from_gpt` raises that
fault out of the function instead of returning the sentinel `None`, and no
inference attempt is made at all (the call log stays empty). -/
theorem client_construction_failure_raises :
    get_analysis_from_gpt_full (.error .authError)
      (fun _ => .ok (.obj [("final_score", Json.num 85)])) "p" =
      .error .authError ∧
    (get_analysis_from_gpt_full_run (.error .authError)
      (fun _ => .ok (.obj [("final_score", Json.num 85)])) "p" []).2 = [] :=
  ⟨rfl, rfl⟩

/-- Claim C3 (amended): when the client construction succeeds, the
analysis client makes exactly one attempt at the inference call (the call
log grows by exactly the one prompt) and never raises: the attempt yields
`some` of the decoded value on success and the sentinel `none` on any
failure of the endpoint call.  When construction raises (missing API
key), the fault propagates out of the function and no attempt is made. -/
theorem analysis_client_one_attempt_no_raise (ci : Except Err Unit)
    (oracle : String → Except Err Json) (prompt : String) (calls : List String) :
    (get_analysis_from_gpt_full_run ci oracle prompt calls).2 =
      (match ci with
       | .ok _ => calls ++ [prompt]
       | .error _ => calls) ∧
    get_analysis_from_gpt_full ci oracle prompt =
      (match ci with
       | .ok _ => .ok (get_analysis_from_gpt oracle prompt)
       | .error e => .error e) ∧
    (get_analysis_from_gpt oracle prompt = none ↔ ∃ e, oracle prompt = .error e) ∧
    (∀ j, get_analysis_from_gpt oracle prompt = some j ↔ oracle prompt = .ok j) := by
  refine ⟨?_, ?_, get_analysis_none_iff oracle prompt,
    fun j => get_analysis_some_iff oracle prompt j⟩
  · cases ci with
    | error e => rfl
    | ok u =>
      unfold get_analysis_from_gpt_full_run get_analysis_from_gpt_run apiCall
      cases h : oracle prompt <;> simp [h]
  · cases ci with
    | error e => rfl
    | ok u => rfl

/-- Claim C6: for a path with the `.pdf` extension, extraction returns the
concatenation, in page order, of the text of every page, where a page
yielding no extractable text contributes the empty string, and no error is
raised. -/
theorem pdf_extraction_concatenates_pages (fs : String → Option FileData)
    (path : String) (pages : List (Option String))
    (hp : pyEndsWith path ".pdf" = true)
    (hf : fs path = some (.pdfFile pages)) :
    extract_text_from_resume fs path =
      .ok (String.join (pages.map fun p => p.getD "")) := by
  unfold extract_text_from_resume
  rw [hp, if_pos rfl, hf]
  simp [String.join, List.foldl_map]

/-- Claim C6 witness: a three-page PDF whose middle page has no extractable
text extracts to the concatenation of the other two pages. -/
theorem pdf_extraction_concatenates_pages_witness :
    pyEndsWith "cv.pdf" ".pdf" = true ∧
    (fun p => if p == "cv.pdf" then some (FileData.pdfFile [some "A", none, some "B"]) else none)
        "cv.pdf" = some (.pdfFile [some "A", none, some "B"]) ∧
    extract_text_from_resume
      (fun p => if p == "cv.pdf" then some (FileData.pdfFile [some "A", none, some "B"]) else none)
      "cv.pdf" =
      .ok (String.join ([some "A", none, some "B"].map fun p => p.getD "")) :=
  ⟨by decide, rfl,
    pdf_extraction_concatenates_pages _ "cv.pdf" [some "A", none, some "B"] (by decide) rfl⟩

/-- Claim C7: the prompt builder is a pure deterministic function of the
job description and the resume text: equal inputs give the identical
prompt string (its embedding is a total function with no effect type, which
is how `no side effects, no I/O` is expressed here). -/
theorem create_llm_prompt_deterministic (jd1 jd2 : PyDict) (t1 t2 : String)
    (hj : jd1 = jd2) (ht : t1 = t2) :
    create_llm_prompt jd1 t1 = create_llm_prompt jd2 t2 := by
  rw [hj, ht]

/-- Claim C7 witness: determinism applied at one concrete input pair. -/
theorem create_llm_prompt_deterministic_witness :
    ([("Role", Json.str "Dev")] : PyDict) = [("Role", Json.str "Dev")] ∧
    "r" = "r" ∧
    create_llm_prompt [("Role", Json.str "Dev")] "r" =
      create_llm_prompt [("Role", Json.str "Dev")] "r" :=
  ⟨rfl, rfl, create_llm_prompt_deterministic _ _ _ _ rfl rfl⟩

/-- Claim C8: for every job-description mapping and each of the three
fields the template interpolates, a missing field does not make the
builder fail: that field renders as the placeholder text `None` in its
slot of the returned prompt (the f-string renders `dict.get` of a missing
key as `None`), while the other slots render as usual. -/
theorem missing_fields_render_placeholder (jd : PyDict) (t : String) :
    (List.lookup "City_Tier" jd = none →
      create_llm_prompt jd t =
        promptPart1 ++ "None" ++
        promptPart2 ++ pyStrOpt (List.lookup "Tier-1_cities" jd) ++
        promptPart3 ++ pyStrOpt (List.lookup "Tier-2_cities" jd) ++
        promptPart4 ++ jsonDumps 2 0 (Json.obj jd) ++ promptPart5 ++ t ++
        promptPart6 ++ json_format_instructions ++ promptPart7) ∧
    (List.lookup "Tier-1_cities" jd = none →
      create_llm_prompt jd t =
        promptPart1 ++ pyStrOpt (List.lookup "City_Tier" jd) ++
        promptPart2 ++ "None" ++
        promptPart3 ++ pyStrOpt (List.lookup "Tier-2_cities" jd) ++
        promptPart4 ++ jsonDumps 2 0 (Json.obj jd) ++ promptPart5 ++ t ++
        promptPart6 ++ json_format_instructions ++ promptPart7) ∧
    (List.lookup "Tier-2_cities" jd = none →
      create_llm_prompt jd t =
        promptPart1 ++ pyStrOpt (List.lookup "City_Tier" jd) ++
        promptPart2 ++ pyStrOpt (List.lookup "Tier-1_cities" jd) ++
        promptPart3 ++ "None" ++
        promptPart4 ++ jsonDumps 2 0 (Json.obj jd) ++ promptPart5 ++ t ++
        promptPart6 ++ json_format_instructions ++ promptPart7) := by
  refine ⟨fun h1 => ?_, fun h2 => ?_, fun h3 => ?_⟩
  · unfold create_llm_prompt
    rw [h1]
    rfl
  · unfold create_llm_prompt
    rw [h2]
    rfl
  · unfold create_llm_prompt
    rw [h3]
    rfl

/-- Claim C8 witness: a job description that has `City_Tier` but is
missing only `Tier-2_cities` still renders a complete prompt, with `None`
in the `Tier-2_cities` slot alone. -/
theorem missing_fields_render_placeholder_witness :
    List.lookup "Tier-2_cities" [("City_Tier", Json.str "Tier-1")] = none ∧
    create_llm_prompt [("City_Tier", Json.str "Tier-1")] "r" =
      promptPart1 ++
      pyStrOpt (List.lookup "City_Tier" [("City_Tier", Json.str "Tier-1")]) ++
      promptPart2 ++
      pyStrOpt (List.lookup "Tier-1_cities" [("City_Tier", Json.str "Tier-1")]) ++
      promptPart3 ++ "None" ++
      promptPart4 ++ jsonDumps 2 0 (Json.obj [("City_Tier", Json.str "Tier-1")]) ++
      promptPart5 ++ "r" ++
      promptPart6 ++ json_format_instructions ++ promptPart7 :=
  ⟨rfl,
   (missing_fields_render_placeholder [("City_Tier", Json.str "Tier-1")] "r").2.2 rfl⟩

/-- Claim C9: for a path whose name ends in neither `.pdf` nor `.txt`,
extraction returns the empty string for every possible filesystem, i.e.
without consulting (opening) the file at all. -/
theorem other_extension_returns_empty (fs : String → Option FileData) (filepath : String)
    (h1 : pyEndsWith filepath ".pdf" = false)
    (h2 : pyEndsWith filepath ".txt" = false) :
    extract_text_from_resume fs filepath = .ok "" := by
  unfold extract_text_from_resume
  rw [h1, h2]
  rfl

/-- Claim C9 witness: a `.docx` file is returned as empty text even over a
filesystem where every open would raise. -/
theorem other_extension_returns_empty_witness :
    pyEndsWith "resume.docx" ".pdf" = false ∧
    pyEndsWith "resume.docx" ".txt" = false ∧
    extract_text_from_resume (fun _ => some FileData.unreadable) "resume.docx" = .ok "" :=
  ⟨by decide, by decide,
    other_extension_returns_empty _ "resume.docx" (by decide) (by decide)⟩

/-- Helper: after `d[k] = v`, looking `k` up in the dict gives `v`. -/
theorem lookup_setKey_self (fs : List (String × Json)) (k : String) (v : Json) :
    List.lookup k (setKey fs k v) = some v := by
  induction fs with
  | nil => simp [setKey, List.lookup]
  | cons p t ih =>
    obtain ⟨k1, v1⟩ := p
    by_cases hk : k1 = k
    · subst hk
      simp [setKey, List.lookup]
    · have hkf : (k1 == k) = false := by simpa using hk
      have hkk : (k == k1) = false := by
        simp only [beq_eq_false_iff_ne] at hkf ⊢
        exact fun e => hkf e.symm
      simp [setKey, List.lookup, hkf, hkk, ih]

/-- Helper: when the reports folder exists and the listing succeeds, the
batch returns one recorded outcome per eligible file, each computed by
`process_file` from that file alone. -/
theorem batch_run_ok (env : Env) (jd : PyDict) (rf of : String) (files : List String)
    (hls : env.listdir = .ok files) (hpe : env.pathExists = true) :
    process_resumes_in_batch env jd rf of =
      .ok (files.filterMap fun fn =>
        if eligible fn then some (fn, process_file jd env rf of fn) else none) := by
  unfold process_resumes_in_batch
  rw [hpe, hls]
  rfl

/-- Helper: full characterization, at the level of the per-file `try`
body, of when one file ends in a written report: extraction succeeded with
non-empty, non-whitespace text, the analysis client was constructed and
the endpoint returned a truthy JSON object, and the write to the report
path succeeded; the artifact is then exactly the analysis result with the
candidate name attached, with indent 4. -/
theorem process_file_body_written_iff (jd : PyDict) (env : Env) (rf of : String)
    (fn : String) (w : Written) :
    process_file_body jd env rf of fn = .ok (.written w) ↔
      ∃ t fso, extract_text_from_resume env.fs (pyJoin rf fn) = .ok t ∧
        t.isEmpty = false ∧ pyIsSpace t = false ∧
        env.clientInit = .ok () ∧
        env.oracle (create_llm_prompt jd t) = .ok (.obj fso) ∧
        Json.truthy (.obj fso) = true ∧
        env.writeOk (pyJoin of (splitextRoot fn ++ "_report.json")) = true ∧
        w = ⟨pyJoin of (splitextRoot fn ++ "_report.json"),
             .obj (setKey fso "candidate_name" (.str (splitextRoot fn))), 4⟩ := by
  constructor
  · intro h
    unfold process_file_body at h
    split at h
    · exact absurd h (by simp)
    · rename_i t heq
      split at h
      · exact absurd h (by simp)
      · rename_i hes
        rw [Bool.or_eq_true, not_or, Bool.not_eq_true, Bool.not_eq_true] at hes
        split at h
        · exact absurd h (by simp)
        · exact absurd h (by simp)
        · rename_i j ho
          obtain ⟨hci, horacle⟩ := (get_analysis_full_ok_some_iff _ _ _ _).1 ho
          split at h
          · rename_i ht
            split at h
            · exact absurd h (by simp)
            · rename_i named hset
              split at h
              · rename_i hw
                cases j with
                | obj fso =>
                  refine ⟨t, fso, heq, hes.1, hes.2, hci, horacle, ht, hw, ?_⟩
                  have hn : named =
                      Json.obj (setKey fso "candidate_name" (.str (splitextRoot fn))) := by
                    simpa [pySetItem] using hset.symm
                  cases h
                  rw [hn]
                | null => simp [pySetItem] at hset
                | bool b => simp [pySetItem] at hset
                | num n => simp [pySetItem] at hset
                | str s => simp [pySetItem] at hset
                | arr es => simp [pySetItem] at hset
              · exact absurd h (by simp)
          · exact absurd h (by simp)
  · rintro ⟨t, fso, hx, he, hs, hci, ho, ht, hw, hwd⟩
    subst hwd
    have hga : get_analysis_from_gpt_full env.clientInit env.oracle
        (create_llm_prompt jd t) = .ok (some (.obj fso)) :=
      (get_analysis_full_ok_some_iff _ _ _ _).2 ⟨hci, ho⟩
    unfold process_file_body
    rw [hx]
    simp [he, hs, hga, ht, hw, pySetItem]

/-- Helper: the caught per-file outcome is a written report exactly when
the uncaught body produced one. -/
theorem process_file_written_iff (jd : PyDict) (env : Env) (rf of : String)
    (fn : String) (w : Written) :
    process_file jd env rf of fn = .written w ↔
      process_file_body jd env rf of fn = .ok (.written w) := by
  unfold process_file
  cases hb : process_file_body jd env rf of fn with
  | error e => simp
  | ok o => cases o <;> simp

/-- Claim C4: an eligible file whose extracted text is empty or whitespace
only is skipped: its outcome is the plain skip (no artifact, no recorded
failure), and the batch still completes with that outcome recorded among
the others. -/
theorem empty_text_skipped (env : Env) (jd : PyDict) (rf of : String)
    (files : List String) (fn t : String)
    (hls : env.listdir = .ok files) (hpe : env.pathExists = true)
    (hmem : fn ∈ files) (hel : eligible fn = true)
    (hx : extract_text_from_resume env.fs (pyJoin rf fn) = .ok t)
    (he : t.isEmpty = true ∨ pyIsSpace t = true) :
    process_file jd env rf of fn = .skippedEmpty ∧
    ∃ outs, process_resumes_in_batch env jd rf of = .ok outs ∧
      (fn, FileOutcome.skippedEmpty) ∈ outs := by
  have hpf : process_file jd env rf of fn = .skippedEmpty := by
    unfold process_file process_file_body
    rw [hx]
    have hb : (t.isEmpty || pyIsSpace t) = true := by
      rcases he with h | h <;> simp [h]
    simp [hb]
  refine ⟨hpf, _, batch_run_ok env jd rf of files hls hpe, ?_⟩
  rw [List.mem_filterMap]
  exact ⟨fn, hmem, by simp [hel, hpf]⟩

/-- Environment for the C4 witness: one eligible resume whose text is only
whitespace. -/
def envC4 : Env :=
  ⟨.ok ["blank.txt"], true, .ok (),
   fun p => if p == "resumes/blank.txt" then some (.txtFile " \n") else none,
   .ok (),
   fun _ => .ok (.obj [("match_score", Json.num 1)]),
   fun _ => true⟩

/-- Claim C4 witness: a whitespace-only resume is skipped with no artifact
and no failure, and the batch completes. -/
theorem empty_text_skipped_witness :
    envC4.listdir = Except.ok ["blank.txt"] ∧
    envC4.pathExists = true ∧
    "blank.txt" ∈ ["blank.txt"] ∧
    eligible "blank.txt" = true ∧
    extract_text_from_resume envC4.fs (pyJoin "resumes/" "blank.txt") = .ok " \n" ∧
    (" \n".isEmpty = true ∨ pyIsSpace " \n" = true) ∧
    (process_file [] envC4 "resumes/" "reports/" "blank.txt" = .skippedEmpty ∧
     ∃ outs, process_resumes_in_batch envC4 [] "resumes/" "reports/" = .ok outs ∧
       ("blank.txt", FileOutcome.skippedEmpty) ∈ outs) :=
  ⟨rfl, rfl, by simp, by decide, rfl, Or.inr (by decide),
   empty_text_skipped envC4 [] "resumes/" "reports/" ["blank.txt"] "blank.txt" " \n"
     rfl rfl (by simp) (by decide) rfl (Or.inr (by decide))⟩

/-- Claim C5: every written report artifact is at path
`<reports folder>/<basename>_report.json`, its JSON object carries a
`candidate_name` field equal to the filename with the extension removed,
and it is serialized with 4-space indentation. -/
theorem report_artifact_shape (jd : PyDict) (env : Env) (rf of fn : String) (w : Written)
    (h : process_file jd env rf of fn = .written w) :
    w.path = pyJoin of (splitextRoot fn ++ "_report.json") ∧
    (∃ fso, w.report = .obj fso ∧
      List.lookup "candidate_name" fso = some (.str (splitextRoot fn))) ∧
    w.indent = 4 := by
  obtain ⟨t, fso, hx, he, hs, hci, ho, ht, hw, hwd⟩ :=
    (process_file_body_written_iff jd env rf of fn w).1
      ((process_file_written_iff jd env rf of fn w).1 h)
  subst hwd
  exact ⟨rfl,
    ⟨setKey fso "candidate_name" (.str (splitextRoot fn)), rfl,
      lookup_setKey_self fso "candidate_name" (.str (splitextRoot fn))⟩,
    rfl⟩

/-- Environment for the C5 witness: one resume that goes all the way to a
written report. -/
def envC5 : Env :=
  ⟨.ok ["alice.txt"], true, .ok (),
   fun p => if p == "resumes/alice.txt" then some (.txtFile "java dev") else none,
   .ok (),
   fun _ => .ok (.obj [("match_score", Json.num 82)]),
   fun _ => true⟩

/-- The report artifact the C5 witness environment produces. -/
def w5 : Written :=
  ⟨"reports/alice_report.json",
   .obj [("match_score", Json.num 82), ("candidate_name", Json.str "alice")], 4⟩

/-- Claim C5 witness: the concrete artifact for `alice.txt` is named
`alice_report.json`, carries `candidate_name = "alice"`, and uses
indent 4. -/
theorem report_artifact_shape_witness :
    process_file [] envC5 "resumes/" "reports/" "alice.txt" = .written w5 ∧
    (w5.path = pyJoin "reports/" (splitextRoot "alice.txt" ++ "_report.json") ∧
     (∃ fso, w5.report = .obj fso ∧
        List.lookup "candidate_name" fso = some (.str (splitextRoot "alice.txt"))) ∧
     w5.indent = 4) :=
  ⟨rfl, report_artifact_shape [] envC5 "resumes/" "reports/" "alice.txt" w5 rfl⟩

/-- Claim C10: a falsy decoded analysis value — the empty JSON object in
particular — is treated exactly like an inference failure: the file ends
in the no-result skip (no candidate name attached, nothing written), the
same outcome the file has under an endpoint that raises. -/
theorem falsy_result_no_report (jd : PyDict) (env : Env) (rf of fn t : String) (j : Json)
    (hx : extract_text_from_resume env.fs (pyJoin rf fn) = .ok t)
    (he : t.isEmpty = false) (hs : pyIsSpace t = false)
    (hci : env.clientInit = .ok ())
    (ho : env.oracle (create_llm_prompt jd t) = .ok j)
    (hf : j.truthy = false) :
    process_file jd env rf of fn = .skippedNoResult ∧
    process_file jd
      ⟨env.listdir, env.pathExists, env.makedirs, env.fs, env.clientInit,
       fun _ => .error .apiError, env.writeOk⟩ rf of fn = .skippedNoResult := by
  have hga : get_analysis_from_gpt_full env.clientInit env.oracle
      (create_llm_prompt jd t) = .ok (some j) :=
    (get_analysis_full_ok_some_iff _ _ _ _).2 ⟨hci, ho⟩
  constructor
  · unfold process_file process_file_body
    rw [hx]
    simp [he, hs, hga, hf]
  · unfold process_file process_file_body
    simp [hx, he, hs, hci, get_analysis_from_gpt_full, get_analysis_from_gpt_full_run,
      get_analysis_from_gpt_run, apiCall]

/-- Environment for the C10 witness: the endpoint answers with the empty
JSON object. -/
def envC10 : Env :=
  ⟨.ok ["a.txt"], true, .ok (),
   fun p => if p == "resumes/a.txt" then some (.txtFile "hello") else none,
   .ok (),
   fun _ => .ok (.obj []),
   fun _ => true⟩

/-- Claim C10 witness: an empty-object analysis result yields the same
no-result skip as a raising endpoint. -/
theorem falsy_result_no_report_witness :
    extract_text_from_resume envC10.fs (pyJoin "resumes/" "a.txt") = .ok "hello" ∧
    "hello".isEmpty = false ∧
    pyIsSpace "hello" = false ∧
    envC10.clientInit = .ok () ∧
    envC10.oracle (create_llm_prompt [] "hello") = .ok (.obj []) ∧
    Json.truthy (.obj []) = false ∧
    (process_file [] envC10 "resumes/" "reports/" "a.txt" = .skippedNoResult ∧
     process_file []
       ⟨envC10.listdir, envC10.pathExists, envC10.makedirs, envC10.fs, envC10.clientInit,
        fun _ => .error .apiError, envC10.writeOk⟩
       "resumes/" "reports/" "a.txt" = .skippedNoResult) :=
  ⟨rfl, rfl, by decide, rfl, rfl, rfl,
   falsy_result_no_report [] envC10 "resumes/" "reports/" "a.txt" "hello" (.obj [])
     rfl rfl (by decide) rfl rfl rfl⟩

/-- Environment for the C1 counterexample: listing the resumes folder
raises (the folder is missing), before any configuration concern. -/
def envC1x : Env :=
  ⟨.error .osError, true, .ok (),
   fun _ => none,
   .ok (),
   fun _ => .error .apiError,
   fun _ => true⟩

/-- Claim C1 counterexample: the whole batch run aborts when the input
directory listing raises, even though configuration loading is not
involved — refuting that only configuration loading may abort the run. -/
theorem batch_aborts_on_listdir_failure :
    process_resumes_in_batch envC1x [] "resumes/" "reports/" = .error .osError := rfl

/-- Claim C1 (amended): once the output directory exists and the input
listing succeeds, the batch completes for every environment: each eligible
file gets its own outcome computed independently, a fault raised inside
one file body surfaces as that file's caught failure rather than an
abort, and every eligible file still has its outcome recorded.  (The
whole run can still abort on the directory listing or the directory
creation, which sit outside the per-file boundary.) -/
theorem per_file_faults_contained (env : Env) (jd : PyDict) (rf of : String)
    (files : List String)
    (hls : env.listdir = .ok files) (hpe : env.pathExists = true) :
    process_resumes_in_batch env jd rf of =
      .ok (files.filterMap fun fn =>
        if eligible fn then some (fn, process_file jd env rf of fn) else none) ∧
    (∀ fn e, process_file_body jd env rf of fn = .error e →
      process_file jd env rf of fn = .failed e) ∧
    (∀ fn, fn ∈ files → eligible fn = true →
      ∃ outs, process_resumes_in_batch env jd rf of = .ok outs ∧
        (fn, process_file jd env rf of fn) ∈ outs) := by
  refine ⟨batch_run_ok env jd rf of files hls hpe, ?_, ?_⟩
  · intro fn e hb
    unfold process_file
    rw [hb]
  · intro fn hmem hel
    refine ⟨_, batch_run_ok env jd rf of files hls hpe, ?_⟩
    rw [List.mem_filterMap]
    exact ⟨fn, hmem, by simp [hel]⟩

/-- Environment for the C1 witness: one file whose extraction raises next
to one that succeeds. -/
def envC1w : Env :=
  ⟨.ok ["bad.txt", "good.txt"], true, .ok (),
   fun p => if p == "resumes/good.txt" then some (.txtFile "hi")
     else if p == "resumes/bad.txt" then some .unreadable else none,
   .ok (),
   fun _ => .ok (.obj [("match_score", Json.num 1)]),
   fun _ => true⟩

/-- Claim C1 witness: the file whose extraction raises is recorded as a
caught per-file failure and the batch still completes over both files. -/
theorem per_file_faults_contained_witness :
    envC1w.listdir = Except.ok ["bad.txt", "good.txt"] ∧
    envC1w.pathExists = true ∧
    process_file_body [] envC1w "resumes/" "reports/" "bad.txt" =
      .error .extractionError ∧
    process_file [] envC1w "resumes/" "reports/" "bad.txt" =
      .failed .extractionError ∧
    process_resumes_in_batch envC1w [] "resumes/" "reports/" =
      .ok (["bad.txt", "good.txt"].filterMap fun fn =>
        if eligible fn then
          some (fn, process_file [] envC1w "resumes/" "reports/" fn)
        else none) :=
  ⟨rfl, rfl, rfl,
   (per_file_faults_contained envC1w [] "resumes/" "reports/"
     ["bad.txt", "good.txt"] rfl rfl).2.1 "bad.txt" .extractionError rfl,
   (per_file_faults_contained envC1w [] "resumes/" "reports/"
     ["bad.txt", "good.txt"] rfl rfl).1⟩

/-- Environment for the C2 counterexample: extraction and analysis both
succeed, but every write to the reports folder raises. -/
def envC2x : Env :=
  ⟨.ok ["a.txt"], true, .ok (),
   fun p => if p == "resumes/a.txt" then some (.txtFile "hello") else none,
   .ok (),
   fun _ => .ok (.obj [("match_score", Json.num 1)]),
   fun _ => false⟩

/-- Claim C2 counterexample: one eligible file whose extraction yields
non-empty text and whose analysis call returns a (truthy) result — yet no
report artifact is written, because the write itself raises.  This
refutes the claimed `if and only if`. -/
theorem no_report_despite_successful_analysis :
    eligible "a.txt" = true ∧
    extract_text_from_resume envC2x.fs (pyJoin "resumes/" "a.txt") = .ok "hello" ∧
    "hello".isEmpty = false ∧
    pyIsSpace "hello" = false ∧
    envC2x.clientInit = .ok () ∧
    get_analysis_from_gpt envC2x.oracle (create_llm_prompt [] "hello") =
      some (.obj [("match_score", Json.num 1)]) ∧
    Json.truthy (.obj [("match_score", Json.num 1)]) = true ∧
    process_resumes_in_batch envC2x [] "resumes/" "reports/" =
      .ok [("a.txt", .failed .writeError)] ∧
    writtenReports [("a.txt", FileOutcome.failed .writeError)] = [] :=
  ⟨by decide, rfl, rfl, by decide, rfl, rfl, rfl, rfl, rfl⟩

/-- Helper: selecting through an eligibility test preserves the count of
the selected elements. -/
theorem length_filterMap_if {β : Type} (p : String → Bool) (g : String → β) :
    ∀ l : List String,
      (l.filterMap fun fn => if p fn then some (g fn) else none).length =
        (l.filter p).length := by
  intro l
  induction l with
  | nil => rfl
  | cons a t ih =>
    by_cases hp : p a = true
    · simp [List.filterMap_cons, List.filter_cons, hp, ih]
    · have hf : p a = false := by simpa using hp
      simp [List.filterMap_cons, List.filter_cons, hf, ih]

/-- Claim C2 (amended): the number of written report artifacts is at most
the number of eligible input files, and a report is written for a file
iff its extraction yielded non-empty, non-whitespace text, the analysis
call returned a truthy JSON object, and the write of the artifact
succeeded. -/
theorem report_written_characterization (env : Env) (jd : PyDict) (rf of : String)
    (files : List String) (outs : List (String × FileOutcome))
    (hls : env.listdir = .ok files) (hpe : env.pathExists = true)
    (hrun : process_resumes_in_batch env jd rf of = .ok outs) :
    (writtenReports outs).length ≤ (files.filter fun fn => eligible fn).length ∧
    ∀ fn, (∃ w, process_file jd env rf of fn = .written w) ↔
      ∃ t fso, extract_text_from_resume env.fs (pyJoin rf fn) = .ok t ∧
        t.isEmpty = false ∧ pyIsSpace t = false ∧
        env.clientInit = .ok () ∧
        env.oracle (create_llm_prompt jd t) = .ok (.obj fso) ∧
        Json.truthy (.obj fso) = true ∧
        env.writeOk (pyJoin of (splitextRoot fn ++ "_report.json")) = true := by
  constructor
  · have hb := batch_run_ok env jd rf of files hls hpe
    rw [hrun] at hb
    have houts : outs = files.filterMap fun fn =>
        if eligible fn then some (fn, process_file jd env rf of fn) else none := by
      injection hb
    calc (writtenReports outs).length
        ≤ outs.length := List.length_filterMap_le _ _
      _ = (files.filter fun fn => eligible fn).length := by
          rw [houts, length_filterMap_if]
  · intro fn
    constructor
    · rintro ⟨w, hw⟩
      obtain ⟨t, fso, hx, he, hs, hci, ho, ht, hwk, _⟩ :=
        (process_file_body_written_iff jd env rf of fn w).1
          ((process_file_written_iff jd env rf of fn w).1 hw)
      exact ⟨t, fso, hx, he, hs, hci, ho, ht, hwk⟩
    · rintro ⟨t, fso, hx, he, hs, hci, ho, ht, hwk⟩
      exact ⟨_, (process_file_written_iff jd env rf of fn _).2
        ((process_file_body_written_iff jd env rf of fn _).2
          ⟨t, fso, hx, he, hs, hci, ho, ht, hwk, rfl⟩)⟩

/-- Environment for the C2 witness: two eligible files, one of which goes
all the way to a written report and one whose endpoint call raises. -/
def envC2w : Env :=
  ⟨.ok ["ok.txt", "fail.pdf"], true, .ok (),
   fun p => if p == "resumes/ok.txt" then some (.txtFile "go")
     else if p == "resumes/fail.pdf" then some (.pdfFile [some "cv"]) else none,
   .ok (),
   fun p => if p == create_llm_prompt [("Role", Json.str "Dev")] "go" then
       .ok (.obj [("final_score", Json.num 85)])
     else .error .apiError,
   fun _ => true⟩

/-- Claim C2 witness: in a concrete run with one written report out of two
eligible files, the count bound and the written-report characterization
hold. -/
theorem report_written_characterization_witness :
    envC2w.listdir = Except.ok ["ok.txt", "fail.pdf"] ∧
    envC2w.pathExists = true ∧
    (∃ outs, process_resumes_in_batch envC2w [("Role", Json.str "Dev")]
        "resumes/" "reports/" = .ok outs ∧
      ((writtenReports outs).length ≤
        ((["ok.txt", "fail.pdf"]).filter fun fn => eligible fn).length ∧
       ∀ fn, (∃ w, process_file [("Role", Json.str "Dev")] envC2w
                "resumes/" "reports/" fn = .written w) ↔
         ∃ t fso, extract_text_from_resume envC2w.fs (pyJoin "resumes/" fn) = .ok t ∧
           t.isEmpty = false ∧ pyIsSpace t = false ∧
           envC2w.clientInit = .ok () ∧
           envC2w.oracle (create_llm_prompt [("Role", Json.str "Dev")] t) =
             .ok (.obj fso) ∧
           Json.truthy (.obj fso) = true ∧
           envC2w.writeOk (pyJoin "reports/" (splitextRoot fn ++ "_report.json")) = true)) :=
  ⟨rfl, rfl, _, rfl,
   report_written_characterization envC2w [("Role", Json.str "Dev")]
     "resumes/" "reports/" ["ok.txt", "fail.pdf"] _ rfl rfl rfl⟩
